import Mathlib

/-!
Shallow embedding of `bunyan-syslog-unixdgram` (src/index.js, plus the
historical variant in src/unnamed/part_000) and proofs about it.

The repository has three parts that matter for verification:
  * the bunyan-level → syslog-severity mapping (`level`, src/index.js 18-62),
  * the formatter in `SyslogStream.prototype.write` (src/index.js 188-205),
  * the delivery channel: the mutable triple queue/connected/congested and
    the handlers `_handleQueue`, `_onConnectionSuccess`, `_onCongestion`,
    `_onWritable`, `_send` (src/index.js 135-214).

The channel is embedded as a state record plus a step function over an
event alphabet; the trace of buffers handed to `socket.send` is recorded in
the `sent` field so that ordering properties can be stated.  Machine
integers do not matter here (JS numbers are used only as small integers);
they are embedded as `Int`/`Nat`.
-/

namespace BunyanSyslog

/-- Embedding of `level` (src/index.js 18-62): converts a bunyan log level
to a syslog severity.  The JS `switch` compares with strict equality against
FATAL=60, ERROR=50, WARN=40, INFO=30 and otherwise falls to DEBUG=7. -/
def level (l : Int) : Nat :=
  if l = 60 then 0
  else if l = 50 then 3
  else if l = 40 then 4
  else if l = 30 then 6
  else 7

/-- Embedding of `module.exports.facility` (src/index.js 217-238): the
facility name → integer table, in source order. -/
def facility : List (String × Nat) :=
  [("kern", 0), ("user", 1), ("mail", 2), ("daemon", 3), ("auth", 4),
   ("syslog", 5), ("lpr", 6), ("news", 7), ("uucp", 8), ("authpriv", 10),
   ("ftp", 11), ("cron", 15), ("local0", 16), ("local1", 17), ("local2", 18),
   ("local3", 19), ("local4", 20), ("local5", 21), ("local6", 22), ("local7", 23)]

/-- The mutable state of a `SyslogStream` delivery channel
(src/index.js 96-110): the pending queue, the connected flag and the
congested flag, together with the trace of buffers handed to
`socket.send` (so ordering of actual sends can be observed).  Buffers are
embedded as strings (the code always builds them from strings). -/
structure StreamState where
  queue : List String
  connected : Bool
  congested : Bool
  sent : List String
deriving Repr, DecidableEq

/-- Channel state right after construction (src/index.js 96-110). -/
def initialState : StreamState :=
  { queue := [], connected := false, congested := false, sent := [] }

/-- Embedding of `SyslogStream.prototype._send` (src/index.js 207-214):
queue the buffer when not connected or congested, otherwise hand it to
`socket.send` (recorded in `sent`). -/
def sendBuf (s : StreamState) (buf : String) : StreamState :=
  if !s.connected || s.congested then
    { s with queue := s.queue ++ [buf] }
  else
    { s with sent := s.sent ++ [buf] }

/-- Embedding of `SyslogStream.prototype._handleQueue` (src/index.js
135-145): swap the queue out, then `_send` each buffer in order. -/
def handleQueue (s : StreamState) : StreamState :=
  List.foldl sendBuf { s with queue := [] } s.queue

/-- Embedding of `SyslogStream.prototype._onConnectionSuccess`
(src/index.js 169-176): set connected, then drain the queue. -/
def onConnectionSuccess (s : StreamState) : StreamState :=
  handleQueue { s with connected := true }

/-- Embedding of `SyslogStream.prototype._onCongestion` (src/index.js
178-181): set congested and push the rejected buffer. -/
def onCongestion (s : StreamState) (buf : String) : StreamState :=
  { s with congested := true, queue := s.queue ++ [buf] }

/-- Embedding of `SyslogStream.prototype._onWritable` (src/index.js
183-186): clear congested, then drain the queue. -/
def onWritable (s : StreamState) : StreamState :=
  handleQueue { s with congested := false }

/-- The events that mutate channel state: a buffer submission (the `_send`
entry point reached from `write`), and the three socket lifecycle events
the channel listens to. -/
inductive Event where
  | submit (buf : String)
  | connectSuccess
  | congestion (buf : String)
  | writable
deriving Repr, DecidableEq

/-- One transition of the delivery channel. -/
def step (s : StreamState) : Event → StreamState
  | .submit b => sendBuf s b
  | .connectSuccess => onConnectionSuccess s
  | .congestion b => onCongestion s b
  | .writable => onWritable s

/-- Run a sequence of events from a state. -/
def run (s : StreamState) (evs : List Event) : StreamState :=
  evs.foldl step s

/-- Modelled from the spec: the value space of a record field as seen by the
serializer.  The repository serializes record bodies with the
`json-stringify-safe` package (required at src/index.js line 9); that
package's code is not part of this repository's sources, so its behaviour
is modelled from the spec's words: a value is either a primitive (rendered
as the given literal text) or a reference to an object node in the record's
object graph — references are what can form cycles. -/
inductive Val where
  | prim (text : String)
  | ref (id : Nat)
deriving Repr, DecidableEq

/-- Modelled from the spec: an object graph, mapping a node id to the
node's named fields.  Cyclic records are graphs whose references loop. -/
abbrev Graph := List (Nat × List (String × Val))

/-- Wrap a string in double quotes (JSON string rendering). -/
def quoteStr (s : String) : String := "\"" ++ s ++ "\""

mutual

/-- Modelled from the spec: cycle-safe serialization of a value, the
behaviour of `json-stringify-safe` (absent from this repository's sources).
Any object reference seen earlier in the current serialization pass is
replaced by the sentinel string "[Circular]" rather than followed.  The
recursion is indexed by fuel so that it is structural; the lemma
`serialize_fuel_sufficient` below shows that `defaultFuel` is always enough
fuel, i.e. the serializer never exhausts fuel (never loops forever). -/
def serializeVal (fuel : Nat) (g : Graph) (seen : List Nat) (v : Val) : Option String :=
  match fuel, v with
  | 0, _ => none
  | _ + 1, .prim t => some t
  | fuel + 1, .ref id =>
    if id ∈ seen then some (quoteStr "[Circular]")
    else
      match g.lookup id with
      | none => some "null"
      | some fields =>
        match serializeFields fuel g (id :: seen) fields with
        | none => none
        | some parts => some ("\x7b" ++ String.intercalate "," parts ++ "\x7d")

/-- Modelled from the spec: serialize the fields of one object, each as
`"key":value`, left to right. -/
def serializeFields (fuel : Nat) (g : Graph) (seen : List Nat)
    (fields : List (String × Val)) : Option (List String) :=
  match fuel, fields with
  | 0, _ => none
  | _ + 1, [] => some []
  | fuel + 1, (k, v) :: rest =>
    match serializeVal fuel g seen v with
    | none => none
    | some sv =>
      match serializeFields fuel g seen rest with
      | none => none
      | some srest => some ((quoteStr k ++ ":" ++ sv) :: srest)

end

/-- Number of graph nodes not yet marked as seen (decreases every time the
serializer steps through a fresh reference). -/
def unvisited (g : Graph) (seen : List Nat) : Nat :=
  ((g.map Prod.fst).filter (fun i => decide (i ∉ seen))).length

/-- Largest field count of any node in the graph. -/
def maxFields (g : Graph) : Nat :=
  g.foldr (fun e acc => max e.2.length acc) 0

/-- Fuel that always suffices for `serializeVal` (see
`serialize_fuel_sufficient`). -/
def defaultFuel (g : Graph) : Nat := (maxFields g + 2) * g.length + 1

/-- Modelled from the spec: the `stringify` entry point used at
src/index.js line 195 — total serialization of a (possibly cyclic) record
graph. -/
def stringify (g : Graph) (v : Val) : String :=
  (serializeVal (defaultFuel g) g [] v).getD ""

/-- Number of (possibly overlapping) occurrences of a pattern in a text,
used to state that the circular sentinel appears exactly once. -/
def countOccurrences (pattern : List Char) : List Char → Nat
  | [] => 0
  | c :: rest =>
    (if pattern.isPrefixOf (c :: rest) then 1 else 0) + countOccurrences pattern rest

/-- A structured log record as consumed by `write` (src/index.js 188-205):
the fields the formatter reads directly (`level`, `time`, `hostname`),
plus the record's serializable content as an object graph handed to
`stringify`.  `time` is serialized as-is (JS `%s`), so it is embedded as a
string. -/
structure Record where
  level : Int
  time : String
  hostname : Option String
  graph : Graph
  root : Val
deriving Repr, DecidableEq

/-- Embedding of `record.hostname || HOSTNAME` (src/index.js 196): a JS
falsy check, so an absent hostname or an empty string falls back to the
machine hostname. -/
def resolveHostname (recHostname : Option String) (machineHostname : String) : String :=
  match recHostname with
  | none => machineHostname
  | some h => if h = "" then machineHostname else h

/-- The resolved construction options of a stream (src/index.js 79-89).
Note the facility is any number: construction does not range-check it. -/
structure StreamOptions where
  facility : Int
  name : String
  path : String
deriving Repr, DecidableEq

/-- The classic BSD syslog header shape the spec describes:
`<priority>timestamp hostname name[pid]:`. -/
def syslogHeader (priority : Int) (time hostname name : String) (pid : Nat) : String :=
  "<" ++ toString priority ++ ">" ++ time ++ " " ++ hostname ++ " " ++ name
    ++ "[" ++ toString pid ++ "]:"

/-- Embedding of the formatting part of `SyslogStream.prototype.write`
(src/index.js 194-204): serialize the record, resolve the hostname,
compute the priority, build the header with
`sprintf('<%d>%s %s %s[%d]:', ...)` and return `header + message + '\n'`.
The result is the text whose UTF-8 encoding (`formatBuffer`) is the buffer
handed to `_send`. -/
def formatMessage (opts : StreamOptions) (machineHostname : String) (pid : Nat)
    (record : Record) : String :=
  let message := stringify record.graph record.root
  let hostname := resolveHostname record.hostname machineHostname
  let priority := opts.facility * 8 + (level record.level : Int)
  let time := record.time
  let name := opts.name
  let header := "<" ++ toString priority ++ ">" ++ time ++ " " ++ hostname ++ " "
    ++ name ++ "[" ++ toString pid ++ "]:"
  header ++ message ++ "\n"

/-- Embedding of `new Buffer(header + message + '\n', 'utf-8')`
(src/index.js 204): the UTF-8 bytes of the formatted text. -/
def formatBuffer (opts : StreamOptions) (machineHostname : String) (pid : Nat)
    (record : Record) : ByteArray :=
  (formatMessage opts machineHostname pid record).toUTF8

/-- A JS value passed to `write`, as far as the `typeof` guard can tell
them apart. -/
inductive JsValue where
  | undef
  | jsNull
  | boolean (b : Bool)
  | number (n : Int)
  | jsString (s : String)
  | object (r : Record)
deriving Repr, DecidableEq

/-- JS `typeof record === 'object'`: true for objects and also for `null`. -/
def typeofIsObject : JsValue → Bool
  | .jsNull => true
  | .object _ => true
  | _ => false

/-- The two ways `write` can throw: the explicit guard error for a
non-object record (src/index.js 191-193), and the TypeError raised at
src/index.js line 196 when the record is `null` (reading
`record.hostname` of `null`). -/
inductive WriteError where
  | invalidRecord
  | typeErrorNullAccess
deriving Repr, DecidableEq

/-- Embedding of `SyslogStream.prototype.write` (src/index.js 188-205) as a
transition on channel state: guard on `typeof record`, then format and
`_send`.  Returns the new state paired with the thrown error, if any; on a
throw the state is returned unchanged (the throw happens before `_send`). -/
def writeStep (opts : StreamOptions) (machineHostname : String) (pid : Nat)
    (s : StreamState) (v : JsValue) : StreamState × Option WriteError :=
  if typeofIsObject v = false then
    (s, some .invalidRecord)
  else
    match v with
    | .object r => (sendBuf s (formatMessage opts machineHostname pid r), none)
    | _ => (s, some .typeErrorNullAccess)

/-- Embedding of the message construction in
`SyslogStream.prototype._onConnectionFailure` (src/index.js 147-167).
The argument `errno` is `err.errno` (a negative number); the source
switches on `-err.errno`. -/
def connectionFailureMessage (path : String) (errno : Int) : String :=
  if -errno = 2 then
    path ++ " does not exist. Provide a path to a socket that does exist"
  else if -errno = 13 then
    "Access was denied to the socket located at " ++ path
      ++ ". Ensure your user has write privileges to the socket"
  else if -errno = 91 then
    path ++ " is not a dgram socket. You may be trying to connect to a stream socket. Ensure the socket uses the datagram protocol."
  else
    "Failed to connect to " ++ path ++ ". The errno code was " ++ toString (-errno) ++ "."

/-- Embedding of the connection-failure handler as a whole
(src/index.js 147-167): it always ends in `throw new Error(errMsg)`, so it
never returns normally. -/
def onConnectionFailure (path : String) (errno : Int) : Except String Unit :=
  Except.error (connectionFailureMessage path errno)

/-- A JS value supplied for one option key, as far as the `assert-plus`
type checks can tell them apart. -/
inductive JsOption where
  | undef
  | number (n : Int)
  | jsString (s : String)
  | boolean (b : Bool)
  | jsNull
deriving Repr, DecidableEq

/-- Embedding of `assert.optionalNumber` (assert-plus): passes on a number
or undefined, fails otherwise. -/
def assertOptionalNumber : JsOption → Bool
  | .undef => true
  | .number _ => true
  | _ => false

/-- Embedding of `assert.optionalString` (assert-plus): passes on a string
or undefined, fails otherwise. -/
def assertOptionalString : JsOption → Bool
  | .undef => true
  | .jsString _ => true
  | _ => false

/-- Embedding of the `SyslogStream` constructor's option handling
(src/index.js 71-89): validate only the types of the three options with
`assert-plus`, then merge over the defaults `facility: 1`,
`name: process.title || process.argv[0]`, `path: '/dev/log'`.  No facility
range check is performed. -/
def mkSyslogStream (processTitle : String) (facilityOpt nameOpt pathOpt : JsOption) :
    Except String StreamOptions :=
  if assertOptionalNumber facilityOpt = false then
    Except.error "options.facility (number) is required"
  else if assertOptionalString nameOpt = false then
    Except.error "options.name (string) is required"
  else if assertOptionalString pathOpt = false then
    Except.error "options.path (string) is required"
  else
    Except.ok
      { facility := match facilityOpt with | .number n => n | _ => 1
        name := match nameOpt with | .jsString s => s | _ => processTitle
        path := match pathOpt with | .jsString s => s | _ => "/dev/log" }

/-! ### Helper lemmas -/

lemma length_filter_lt_of {α : Type} (p q : α → Bool) (hpq : ∀ a, p a = true → q a = true) :
    ∀ (l : List α) (x : α), x ∈ l → q x = true → p x = false →
      (l.filter p).length < (l.filter q).length := by
  intro l
  induction l with
  | nil => intro x hx; cases hx
  | cons a l ih =>
    intro x hx hqx hpx
    cases hx with
    | head =>
      rw [List.filter_cons_of_neg (by simp [hpx]), List.filter_cons_of_pos (by simp [hqx])]
      exact Nat.lt_succ_of_le (List.monotone_filter_right l hpq).length_le
    | tail _ hmem =>
      by_cases hpa : p a = true
      · rw [List.filter_cons_of_pos (by simp [hpa]),
          List.filter_cons_of_pos (by simp [hpq a hpa])]
        exact Nat.succ_lt_succ (ih x hmem hqx hpx)
      · rw [List.filter_cons_of_neg (by simp [hpa])]
        by_cases hqa : q a = true
        · rw [List.filter_cons_of_pos (by simp [hqa])]
          exact Nat.lt_succ_of_lt (ih x hmem hqx hpx)
        · rw [List.filter_cons_of_neg (by simp [hqa])]
          exact ih x hmem hqx hpx

lemma unvisited_cons_lt (g : Graph) (seen : List Nat) (id : Nat)
    (hmem : id ∈ g.map Prod.fst) (hnot : id ∉ seen) :
    unvisited g (id :: seen) < unvisited g seen := by
  apply length_filter_lt_of
  · intro a ha
    simp only [decide_eq_true_eq] at ha ⊢
    intro h
    exact ha (List.mem_cons_of_mem _ h)
  · exact hmem
  · simpa using hnot
  · simp

lemma lookup_mem_keys (g : Graph) (id : Nat) (fields : List (String × Val))
    (h : g.lookup id = some fields) : id ∈ g.map Prod.fst := by
  induction g with
  | nil => simp [List.lookup] at h
  | cons p g ih =>
    obtain ⟨k, v⟩ := p
    by_cases hk : id = k
    · subst hk
      simp
    · have hbeq : (id == k) = false := by simpa using hk
      simp only [List.lookup, hbeq] at h
      right
      exact ih h

lemma lookup_length_le_maxFields (g : Graph) (id : Nat) (fields : List (String × Val))
    (h : g.lookup id = some fields) : fields.length ≤ maxFields g := by
  induction g with
  | nil => simp [List.lookup] at h
  | cons p g ih =>
    obtain ⟨k, v⟩ := p
    by_cases hk : id = k
    · have hbeq : (id == k) = true := by simpa using hk
      simp only [List.lookup, hbeq, Option.some.injEq] at h
      subst h
      exact le_max_left _ _
    · have hbeq : (id == k) = false := by simpa using hk
      simp only [List.lookup, hbeq] at h
      exact le_trans (ih h) (le_max_right _ _)

lemma serialize_fuel_sufficient :
    ∀ fuel : Nat,
      (∀ (g : Graph) (seen : List Nat) (v : Val),
        (maxFields g + 2) * unvisited g seen + 1 ≤ fuel →
        (serializeVal fuel g seen v).isSome = true) ∧
      (∀ (g : Graph) (seen : List Nat) (fields : List (String × Val)),
        (maxFields g + 2) * unvisited g seen + fields.length + 1 ≤ fuel →
        (serializeFields fuel g seen fields).isSome = true) := by
  intro fuel
  induction fuel with
  | zero =>
    constructor
    · intro g seen v h
      exact absurd h (by omega)
    · intro g seen fields h
      exact absurd h (by omega)
  | succ f ih =>
    obtain ⟨ihV, ihF⟩ := ih
    constructor
    · intro g seen v h
      cases v with
      | prim t => simp [serializeVal]
      | ref id =>
        by_cases hid : id ∈ seen
        · simp [serializeVal, hid]
        · cases hlook : g.lookup id with
          | none => simp [serializeVal, hid, hlook]
          | some fields =>
            have hu : unvisited g (id :: seen) + 1 ≤ unvisited g seen :=
              unvisited_cons_lt g seen id (lookup_mem_keys g id fields hlook) hid
            have hlen : fields.length ≤ maxFields g :=
              lookup_length_le_maxFields g id fields hlook
            have hmul : (maxFields g + 2) * (unvisited g (id :: seen) + 1) ≤
                (maxFields g + 2) * unvisited g seen :=
              Nat.mul_le_mul_left _ hu
            have hbound : (maxFields g + 2) * unvisited g (id :: seen) +
                fields.length + 1 ≤ f := by
              have hexp : (maxFields g + 2) * (unvisited g (id :: seen) + 1) =
                  (maxFields g + 2) * unvisited g (id :: seen) + (maxFields g + 2) := by
                ring
              rw [hexp] at hmul
              set A := (maxFields g + 2) * unvisited g (id :: seen)
              set B := (maxFields g + 2) * unvisited g seen
              omega
            have hsome := ihF g (id :: seen) fields hbound
            obtain ⟨parts, hp⟩ := Option.isSome_iff_exists.mp hsome
            simp [serializeVal, hid, hlook, hp]
    · intro g seen fields h
      cases fields with
      | nil => simp [serializeFields]
      | cons kv rest =>
        obtain ⟨k, v⟩ := kv
        have hV : (maxFields g + 2) * unvisited g seen + 1 ≤ f := by
          set A := (maxFields g + 2) * unvisited g seen
          simp only [List.length_cons] at h
          omega
        have hF : (maxFields g + 2) * unvisited g seen + rest.length + 1 ≤ f := by
          set A := (maxFields g + 2) * unvisited g seen
          simp only [List.length_cons] at h
          omega
        obtain ⟨sv, hsv⟩ := Option.isSome_iff_exists.mp (ihV g seen v hV)
        obtain ⟨srest, hsrest⟩ := Option.isSome_iff_exists.mp (ihF g seen rest hF)
        simp [serializeFields, hsv, hsrest]

lemma unvisited_nil (g : Graph) : unvisited g [] = g.length := by
  simp [unvisited]

lemma serializeVal_defaultFuel_isSome (g : Graph) (v : Val) :
    (serializeVal (defaultFuel g) g [] v).isSome = true := by
  apply (serialize_fuel_sufficient (defaultFuel g)).1
  rw [unvisited_nil]
  exact Nat.le_refl _

lemma sendBuf_notConnected (s : StreamState) (b : String) (h : s.connected = false) :
    sendBuf s b = { s with queue := s.queue ++ [b] } := by
  unfold sendBuf
  rw [h]
  simp

lemma sendBuf_clear (s : StreamState) (b : String) (h1 : s.connected = true)
    (h2 : s.congested = false) :
    sendBuf s b = { s with sent := s.sent ++ [b] } := by
  unfold sendBuf
  rw [h1, h2]
  simp

lemma foldl_sendBuf_clear (q : List String) : ∀ s : StreamState,
    s.connected = true → s.congested = false →
    List.foldl sendBuf s q = { s with sent := s.sent ++ q } := by
  induction q with
  | nil =>
    intro s h1 h2
    simp
  | cons b q ih =>
    intro s h1 h2
    rw [List.foldl_cons, sendBuf_clear s b h1 h2,
      ih { s with sent := s.sent ++ [b] } h1 h2]
    simp

lemma sendBuf_sent_mono (s : StreamState) (b : String) :
    ∃ t, (sendBuf s b).sent = s.sent ++ t := by
  unfold sendBuf
  split
  · exact ⟨[], by simp⟩
  · exact ⟨[b], rfl⟩

lemma foldl_sendBuf_sent_mono (q : List String) : ∀ s : StreamState,
    ∃ t, (List.foldl sendBuf s q).sent = s.sent ++ t := by
  induction q with
  | nil =>
    intro s
    exact ⟨[], by simp⟩
  | cons b q ih =>
    intro s
    obtain ⟨t1, h1⟩ := sendBuf_sent_mono s b
    obtain ⟨t2, h2⟩ := ih (sendBuf s b)
    exact ⟨t1 ++ t2, by rw [List.foldl_cons, h2, h1, List.append_assoc]⟩

lemma step_sent_mono (s : StreamState) (e : Event) :
    ∃ t, (step s e).sent = s.sent ++ t := by
  cases e with
  | submit b => exact sendBuf_sent_mono s b
  | connectSuccess => exact foldl_sendBuf_sent_mono _ _
  | congestion b => exact ⟨[], by simp [step, onCongestion]⟩
  | writable => exact foldl_sendBuf_sent_mono _ _

lemma run_sent_mono (evs : List Event) : ∀ s : StreamState,
    ∃ t, (run s evs).sent = s.sent ++ t := by
  induction evs with
  | nil =>
    intro s
    exact ⟨[], by simp [run]⟩
  | cons e evs ih =>
    intro s
    obtain ⟨t1, h1⟩ := step_sent_mono s e
    obtain ⟨t2, h2⟩ := ih (step s e)
    refine ⟨t1 ++ t2, ?_⟩
    show (run (step s e) evs).sent = _
    rw [h2, h1, List.append_assoc]

lemma run_append (s : StreamState) (a b : List Event) :
    run s (a ++ b) = run (run s a) b :=
  List.foldl_append _ _ _ _

lemma run_submits (bufs : List String) : ∀ s : StreamState, s.connected = false →
    run s (bufs.map Event.submit) = { s with queue := s.queue ++ bufs } := by
  induction bufs with
  | nil =>
    intro s h
    simp [run]
  | cons b bufs ih =>
    intro s h
    have hstep : step s (Event.submit b) = { s with queue := s.queue ++ [b] } :=
      sendBuf_notConnected s b h
    show run (step s (Event.submit b)) (bufs.map Event.submit) = _
    rw [hstep, ih { s with queue := s.queue ++ [b] } h]
    simp

lemma onConnectionSuccess_spec (s : StreamState) (h : s.congested = false) :
    onConnectionSuccess s =
      { queue := [], connected := true, congested := false, sent := s.sent ++ s.queue } := by
  unfold onConnectionSuccess handleQueue
  show List.foldl sendBuf
    { queue := [], connected := true, congested := s.congested, sent := s.sent } s.queue = _
  rw [foldl_sendBuf_clear s.queue
    { queue := [], connected := true, congested := s.congested, sent := s.sent } rfl h]
  simp [h]

lemma onWritable_spec (s : StreamState) (h : s.connected = true) :
    onWritable s =
      { queue := [], connected := true, congested := false, sent := s.sent ++ s.queue } := by
  unfold onWritable handleQueue
  show List.foldl sendBuf
    { queue := [], connected := s.connected, congested := false, sent := s.sent } s.queue = _
  rw [foldl_sendBuf_clear s.queue
    { queue := [], connected := s.connected, congested := false, sent := s.sent } h rfl]
  simp [h]

/-! ### The claims -/

/-- C1 counterexample: the claim says every source level at or above 60
maps to emerg (0), but the code's `switch` matches level 60 exactly, so
level 61 — which is at least 60 — maps to debug (7), not 0. -/
theorem C1_counterexample :
    (60 : Int) ≤ 61 ∧ level 61 = 7 ∧ level 61 ≠ 0 := by decide

/-- C1 (amended): the severity mapping is total over the integers and
returns only values in the set containing 0, 3, 4, 6 and 7: level exactly
60 maps to emerg (0), 50 to err (3), 40 to warning (4), 30 to info (6),
and every other integer level — including levels strictly above 60, all
levels below 30, and unrecognized values — maps to debug (7). -/
theorem C1_severity_total (n : Int) :
    (level n = 0 ∨ level n = 3 ∨ level n = 4 ∨ level n = 6 ∨ level n = 7) ∧
    level 60 = 0 ∧ level 50 = 3 ∧ level 40 = 4 ∧ level 30 = 6 ∧
    (n ≠ 60 → n ≠ 50 → n ≠ 40 → n ≠ 30 → level n = 7) := by
  refine ⟨?_, by decide, by decide, by decide, by decide, ?_⟩
  · unfold level
    by_cases h60 : n = 60
    · rw [if_pos h60]; exact Or.inl rfl
    rw [if_neg h60]
    by_cases h50 : n = 50
    · rw [if_pos h50]; exact Or.inr (Or.inl rfl)
    rw [if_neg h50]
    by_cases h40 : n = 40
    · rw [if_pos h40]; exact Or.inr (Or.inr (Or.inl rfl))
    rw [if_neg h40]
    by_cases h30 : n = 30
    · rw [if_pos h30]; exact Or.inr (Or.inr (Or.inr (Or.inl rfl)))
    rw [if_neg h30]
    exact Or.inr (Or.inr (Or.inr (Or.inr rfl)))
  · intro h60 h50 h40 h30
    unfold level
    rw [if_neg h60, if_neg h50, if_neg h40, if_neg h30]

/-- C1 witness: the amended theorem applied at the concrete level 45,
whose hypotheses (45 is none of 60, 50, 40, 30) are discharged, yields
severity 7. -/
theorem C1_severity_total_witness : level 45 = 7 :=
  (C1_severity_total 45).2.2.2.2.2 (by decide) (by decide) (by decide) (by decide)

/-- C8: the exported facility table has exactly 20 entries with kern=0,
user=1, mail=2, daemon=3, auth=4, syslog=5, lpr=6, news=7, uucp=8,
authpriv=10, ftp=11, cron=15, and local0 through local7 equal to 16
through 23; the codes 9, 12, 13 and 14 are absent and every value is at
most 23. -/
theorem C8_facility_table :
    facility.length = 20 ∧
    facility.lookup "kern" = some 0 ∧ facility.lookup "user" = some 1 ∧
    facility.lookup "mail" = some 2 ∧ facility.lookup "daemon" = some 3 ∧
    facility.lookup "auth" = some 4 ∧ facility.lookup "syslog" = some 5 ∧
    facility.lookup "lpr" = some 6 ∧ facility.lookup "news" = some 7 ∧
    facility.lookup "uucp" = some 8 ∧ facility.lookup "authpriv" = some 10 ∧
    facility.lookup "ftp" = some 11 ∧ facility.lookup "cron" = some 15 ∧
    facility.lookup "local0" = some 16 ∧ facility.lookup "local1" = some 17 ∧
    facility.lookup "local2" = some 18 ∧ facility.lookup "local3" = some 19 ∧
    facility.lookup "local4" = some 20 ∧ facility.lookup "local5" = some 21 ∧
    facility.lookup "local6" = some 22 ∧ facility.lookup "local7" = some 23 ∧
    (facility.map Prod.snd).contains 9 = false ∧
    (facility.map Prod.snd).contains 12 = false ∧
    (facility.map Prod.snd).contains 13 = false ∧
    (facility.map Prod.snd).contains 14 = false ∧
    (facility.map Prod.snd).all (fun v => v ≤ 23) = true := by decide

/-- C5: serialization of the record body is total — with the fuel bound
`defaultFuel` the serializer always returns a result on every object
graph, cyclic ones included (it never throws and, the recursion being
fuel-bounded, never loops); every reference already seen earlier in the
current pass is replaced by the sentinel string "[Circular]"; and on a
concrete self-referential object the sentinel appears exactly once. -/
theorem C5_stringify_total :
    (∀ (g : Graph) (v : Val), (serializeVal (defaultFuel g) g [] v).isSome = true) ∧
    (∀ (fuel : Nat) (g : Graph) (seen : List Nat) (id : Nat), id ∈ seen →
      serializeVal (fuel + 1) g seen (Val.ref id) = some (quoteStr "[Circular]")) ∧
    stringify [(0, [("a", Val.ref 0)])] (Val.ref 0) = "\x7b\"a\":\"[Circular]\"\x7d" ∧
    countOccurrences "[Circular]".toList
      (stringify [(0, [("a", Val.ref 0)])] (Val.ref 0)).toList = 1 ∧
    countOccurrences "[Circular]".toList
      (stringify [(0, [("a", Val.ref 1)]), (1, [("b", Val.ref 0)])] (Val.ref 0)).toList = 1 := by
  refine ⟨serializeVal_defaultFuel_isSome, ?_, by decide, by decide, by decide⟩
  intro fuel g seen id h
  simp [serializeVal, h]

/-- C5 witness: the sentinel conjunct of the totality theorem applied at a
concrete graph whose node 0 is already marked seen. -/
theorem C5_stringify_total_witness :
    serializeVal 1 [(0, [("a", Val.ref 0)])] [0] (Val.ref 0) = some (quoteStr "[Circular]") :=
  C5_stringify_total.2.1 0 [(0, [("a", Val.ref 0)])] [0] 0 (by decide)

/-- C2: buffers submitted while not yet connected are queued in submission
order with nothing sent; the connect-success event flushes the entire
pending queue in exactly that order (FIFO), leaving the queue empty; and
afterwards those flushed buffers remain a prefix of the send trace under
any further events, so every buffer enqueued before the connection
succeeded is sent before any buffer (queued or not) sent after. -/
theorem C2_fifo_flush_on_connect (bufs : List String) (rest : List Event) :
    (run initialState (bufs.map Event.submit)).sent = [] ∧
    (run initialState (bufs.map Event.submit)).queue = bufs ∧
    (run initialState (bufs.map Event.submit ++ [Event.connectSuccess])).sent = bufs ∧
    (run initialState (bufs.map Event.submit ++ [Event.connectSuccess])).queue = [] ∧
    ∃ later,
      (run initialState (bufs.map Event.submit ++ Event.connectSuccess :: rest)).sent =
        bufs ++ later := by
  have h1 : run initialState (bufs.map Event.submit) =
      { queue := bufs, connected := false, congested := false, sent := [] } := by
    rw [run_submits bufs initialState rfl]
    simp [initialState]
  have h2 : run initialState (bufs.map Event.submit ++ [Event.connectSuccess]) =
      { queue := [], connected := true, congested := false, sent := bufs } := by
    rw [run_append, h1]
    show onConnectionSuccess
      { queue := bufs, connected := false, congested := false, sent := [] } = _
    rw [onConnectionSuccess_spec _ rfl]
    simp
  refine ⟨by rw [h1], by rw [h1], by rw [h2], by rw [h2], ?_⟩
  have hsplit : bufs.map Event.submit ++ Event.connectSuccess :: rest =
      (bufs.map Event.submit ++ [Event.connectSuccess]) ++ rest := by
    simp
  rw [hsplit, run_append, h2]
  obtain ⟨t, ht⟩ := run_sent_mono rest
    { queue := [], connected := true, congested := false, sent := bufs }
  exact ⟨t, ht⟩

/-- C3: a buffer submitted while connected and clear is handed directly to
the transport send operation; a congestion signal carrying a buffer sets
the congested flag and appends that buffer to the tail of the pending
queue; while not connected or while congested, a submitted buffer is
appended to the tail of the queue without error; and a writable signal
clears the congested flag and drains exactly the buffers queued at that
point, in order. -/
theorem C3_send_queue_drain :
    (∀ (s : StreamState) (b : String), s.connected = true → s.congested = false →
      step s (Event.submit b) = { s with sent := s.sent ++ [b] }) ∧
    (∀ (s : StreamState) (b : String),
      step s (Event.congestion b) = { s with congested := true, queue := s.queue ++ [b] }) ∧
    (∀ (s : StreamState) (b : String), s.connected = false ∨ s.congested = true →
      step s (Event.submit b) = { s with queue := s.queue ++ [b] }) ∧
    (∀ s : StreamState, s.connected = true →
      step s Event.writable =
        { queue := [], connected := true, congested := false, sent := s.sent ++ s.queue }) := by
  refine ⟨?_, ?_, ?_, ?_⟩
  · intro s b h1 h2
    exact sendBuf_clear s b h1 h2
  · intro s b
    rfl
  · intro s b h
    cases h with
    | inl h => exact sendBuf_notConnected s b h
    | inr h =>
      show sendBuf s b = _
      unfold sendBuf
      rw [h]
      simp
  · intro s h
    exact onWritable_spec s h

/-- C3 witness: the four conjuncts applied at concrete channel states,
discharging every hypothesis: a direct send while connected and clear, a
congestion enqueue, a queued submission while disconnected, and a writable
drain of a two-element queue. -/
theorem C3_send_queue_drain_witness :
    step { queue := [], connected := true, congested := false, sent := [] }
      (Event.submit "a") =
      { queue := [], connected := true, congested := false, sent := ["a"] } ∧
    step { queue := ["q"], connected := true, congested := false, sent := [] }
      (Event.congestion "b") =
      { queue := ["q", "b"], connected := true, congested := true, sent := [] } ∧
    step { queue := [], connected := false, congested := false, sent := [] }
      (Event.submit "c") =
      { queue := ["c"], connected := false, congested := false, sent := [] } ∧
    step { queue := ["x", "y"], connected := true, congested := true, sent := ["w"] }
      Event.writable =
      { queue := [], connected := true, congested := false, sent := ["w", "x", "y"] } :=
  ⟨C3_send_queue_drain.1 _ "a" rfl rfl,
   C3_send_queue_drain.2.1 _ "b",
   C3_send_queue_drain.2.2.1 _ "c" (Or.inl rfl),
   C3_send_queue_drain.2.2.2 _ rfl⟩

/-- C4: for every structured record the formatted output equals the
classic syslog header `<priority>timestamp hostname name[pid]:` followed
by the serialized record body and a trailing newline, with
priority = facility * 8 + severity(record.level), and the byte output is
the UTF-8 encoding of that text; in particular with facility 1, level 30,
hostname "h", name "app" and pid 1234 the header equals
`<14>` ++ timestamp ++ ` h app[1234]:`. -/
theorem C4_format_shape (opts : StreamOptions) (machineHostname : String) (pid : Nat)
    (r : Record) :
    formatMessage opts machineHostname pid r =
      syslogHeader (opts.facility * 8 + (level r.level : Int)) r.time
        (resolveHostname r.hostname machineHostname) opts.name pid
        ++ stringify r.graph r.root ++ "\n" ∧
    formatBuffer opts machineHostname pid r =
      (formatMessage opts machineHostname pid r).toUTF8 ∧
    syslogHeader ((1 : Int) * 8 + (level 30 : Int)) "Jan 01 00:00:00" "h" "app" 1234 =
      "<14>" ++ "Jan 01 00:00:00" ++ " h app[1234]:" ∧
    formatMessage { facility := 1, name := "app", path := "/dev/log" } "machine" 1234
      { level := 30, time := "Jan 01 00:00:00", hostname := some "h",
        graph := [], root := Val.prim "BODY" } =
      "<14>Jan 01 00:00:00 h app[1234]:BODY\n" := by
  refine ⟨rfl, rfl, by decide, by decide⟩

/-- C6: write throws a synchronous error if and only if the record is not
an object (every non-object primitive hits the guard; null, though it
passes the typeof guard, throws a TypeError at the later field access —
see C9), and whenever it throws, the channel state is unchanged: nothing
is sent and nothing is enqueued. -/
theorem C6_write_throws_iff_nonobject (opts : StreamOptions) (machineHostname : String)
    (pid : Nat) (s : StreamState) (v : JsValue) :
    ((writeStep opts machineHostname pid s v).2 = none ↔ ∃ r, v = JsValue.object r) ∧
    ((writeStep opts machineHostname pid s v).2 ≠ none →
      (writeStep opts machineHostname pid s v).1 = s) := by
  cases v <;> simp [writeStep, typeofIsObject]

/-- C6 witness: the theorem applied with the concrete non-object record 5
— write throws and the concrete channel state is returned unchanged. -/
theorem C6_write_throws_iff_nonobject_witness :
    (writeStep { facility := 1, name := "app", path := "/dev/log" } "h" 1
      initialState (JsValue.number 5)).1 = initialState :=
  (C6_write_throws_iff_nonobject { facility := 1, name := "app", path := "/dev/log" }
    "h" 1 initialState (JsValue.number 5)).2 (by decide)

/-- C9: the structured-mode guard rejects a record exactly when JS
`typeof` is not 'object'; `typeof null` is 'object', so write(null) is not
rejected by the non-object error path and instead fails later when the
record's fields are accessed — the null record is an unguarded edge case
of the public write interface. -/
theorem C9_null_passes_typeof_guard (opts : StreamOptions) (machineHostname : String)
    (pid : Nat) (s : StreamState) :
    typeofIsObject JsValue.jsNull = true ∧
    (∀ v, (writeStep opts machineHostname pid s v).2 = some WriteError.invalidRecord ↔
      typeofIsObject v = false) ∧
    (writeStep opts machineHostname pid s JsValue.jsNull).2 =
      some WriteError.typeErrorNullAccess := by
  refine ⟨rfl, ?_, rfl⟩
  intro v
  cases v <;> simp [writeStep, typeofIsObject]

/-- C9 witness: the guard equivalence applied at the concrete string
record "x" — it is rejected with the guard error. -/
theorem C9_null_passes_typeof_guard_witness :
    (writeStep { facility := 1, name := "app", path := "/dev/log" } "h" 1
      initialState (JsValue.jsString "x")).2 = some WriteError.invalidRecord :=
  ((C9_null_passes_typeof_guard { facility := 1, name := "app", path := "/dev/log" }
    "h" 1 initialState).2.1 (JsValue.jsString "x")).mpr rfl

/-- C7: a connection error before success always raises an error (never a
silent no-op) whose message contains the configured socket path, and the
messages distinguish the causes: path does not exist (errno -2),
permission denied (-13), not a datagram socket (-91), and a default
naming any other errno code — the four messages are pairwise distinct. -/
theorem C7_connection_failure_surfaced (path : String) (errno : Int) :
    (∃ pre post, connectionFailureMessage path errno = pre ++ path ++ post) ∧
    onConnectionFailure path errno = Except.error (connectionFailureMessage path errno) ∧
    (∀ u : Unit, onConnectionFailure path errno ≠ Except.ok u) ∧
    (connectionFailureMessage "/dev/log" (-2) ≠ connectionFailureMessage "/dev/log" (-13) ∧
     connectionFailureMessage "/dev/log" (-2) ≠ connectionFailureMessage "/dev/log" (-91) ∧
     connectionFailureMessage "/dev/log" (-2) ≠ connectionFailureMessage "/dev/log" (-99) ∧
     connectionFailureMessage "/dev/log" (-13) ≠ connectionFailureMessage "/dev/log" (-91) ∧
     connectionFailureMessage "/dev/log" (-13) ≠ connectionFailureMessage "/dev/log" (-99) ∧
     connectionFailureMessage "/dev/log" (-91) ≠ connectionFailureMessage "/dev/log" (-99)) := by
  refine ⟨?_, rfl, fun u h => Except.noConfusion h, by decide⟩
  unfold connectionFailureMessage
  split
  · exact ⟨"", " does not exist. Provide a path to a socket that does exist", rfl⟩
  split
  · exact ⟨"Access was denied to the socket located at ",
      ". Ensure your user has write privileges to the socket", rfl⟩
  split
  · exact ⟨"", " is not a dgram socket. You may be trying to connect to a stream socket. Ensure the socket uses the datagram protocol.", rfl⟩
  · refine ⟨"Failed to connect to ",
      ". The errno code was " ++ toString (-errno) ++ ".", ?_⟩
    simp [String.append_assoc]

/-- C7 witness: the path-containment conjunct evaluated at the concrete
path and errno of a nonexistent socket. -/
theorem C7_connection_failure_surfaced_witness :
    (∃ pre post, connectionFailureMessage "/tmp/missing.sock" (-2) =
      pre ++ "/tmp/missing.sock" ++ post) ∧
    (∀ u : Unit, onConnectionFailure "/tmp/missing.sock" (-2) ≠ Except.ok u) :=
  ⟨(C7_connection_failure_surfaced "/tmp/missing.sock" (-2)).1,
   (C7_connection_failure_surfaced "/tmp/missing.sock" (-2)).2.2.1⟩

/-- C10: construction validates only the types of the options (facility a
number, name and path strings) and never the facility range: every
numeric facility is accepted, and write computes
priority = facility * 8 + severity from it unchanged, so the out-of-range
facility 99 silently yields the out-of-range priority 798 > 191. -/
theorem C10_no_facility_range_check (processTitle : String) (f : Int) :
    (∃ opts, mkSyslogStream processTitle (JsOption.number f) JsOption.undef JsOption.undef =
      Except.ok opts ∧ opts.facility = f) ∧
    mkSyslogStream "node" (JsOption.jsString "oops") JsOption.undef JsOption.undef =
      Except.error "options.facility (number) is required" ∧
    mkSyslogStream "node" (JsOption.number 99) JsOption.undef JsOption.undef =
      Except.ok { facility := 99, name := "node", path := "/dev/log" } ∧
    formatMessage { facility := 99, name := "node", path := "/dev/log" } "h" 1
      { level := 30, time := "T", hostname := none, graph := [], root := Val.prim "B" } =
      "<798>T h node[1]:B\n" ∧
    ¬((99 : Int) * 8 + (level 30 : Int) ≤ 191) := by
  exact ⟨⟨{ facility := f, name := processTitle, path := "/dev/log" }, rfl, rfl⟩,
    rfl, rfl, by decide, by decide⟩

/-- C10 witness: the theorem applied at the concrete out-of-range facility
200 — construction still succeeds and keeps 200 as the facility. -/
theorem C10_no_facility_range_check_witness :
    ∃ opts, mkSyslogStream "node" (JsOption.number 200) JsOption.undef JsOption.undef =
      Except.ok opts ∧ opts.facility = 200 :=
  (C10_no_facility_range_check "node" 200).1

end BunyanSyslog
